import Mathlib

/-!
Shallow embedding of the campaign-progression core of `StarfoxMenuSystem.jsx`.

The progression state machine lives in the `StarfoxMenuSystem` React
component: the orchestrator's `useState` hooks are the in-memory run state,
IndexedDB holds a single persisted record (`currentProgress`), and the
screen handlers (`handleNewGame`, `handleContinue`, `handleWingmenConfirm`,
`handleResultsContinue`, `handleLevelSelect`, `handleNewGamePlus`,
`getAvailableChoices`) are the transitions.  We model the component state as
a structure, the store as `Option GameProgress` (the single record under the
fixed key), and each handler as a pure function on `MenuState × Store`.
Persistence writes are modelled on their success path (the code catches and
logs failures without rolling back, and the claims under study concern the
successful write).  Floating-point volume option fields are omitted: the
progression logic never reads them.

Screen-name correspondence with the spec's state machine:
`wingmanChoice` = AwaitingSquad, `mission` = Briefing, `playing` = InMission,
`results` = Results, `campaignChoice` = PathChoice, `gameComplete` = RunComplete.
-/

namespace Starfox

/-- One entry of `CAMPAIGN_DATA.levels`.  `isFinal` is absent (hence falsy)
in the source for every level but `'5'`; we model it as a `Bool` that is
`false` there. -/
structure Mission where
  id : String
  name : String
  subtitle : String
  difficulty : Nat
  nextChoices : List String
  environment : String
  isFinal : Bool
deriving DecidableEq, Repr

def corneria : Mission :=
  { id := "1", name := "CORNERIA", subtitle := "The Adventure Begins",
    difficulty := 1, nextChoices := ["2a", "2b"], environment := "city",
    isFinal := false }

def meteo : Mission :=
  { id := "2a", name := "METEO", subtitle := "Asteroid Field",
    difficulty := 2, nextChoices := ["3"], environment := "space",
    isFinal := false }

def sectorY : Mission :=
  { id := "2b", name := "SECTOR Y", subtitle := "Combat Zone",
    difficulty := 3, nextChoices := ["3"], environment := "space",
    isFinal := false }

def aquas : Mission :=
  { id := "3", name := "AQUAS", subtitle := "Terror of the Deep",
    difficulty := 3, nextChoices := ["4a", "4b"], environment := "underwater",
    isFinal := false }

def zoness : Mission :=
  { id := "4a", name := "ZONESS", subtitle := "Toxic Wasteland",
    difficulty := 4, nextChoices := ["5"], environment := "toxic",
    isFinal := false }

def macbeth : Mission :=
  { id := "4b", name := "MACBETH", subtitle := "The Forever Train",
    difficulty := 4, nextChoices := ["5"], environment := "industrial",
    isFinal := false }

def venom : Mission :=
  { id := "5", name := "VENOM", subtitle := "The Final Battle",
    difficulty := 5, nextChoices := [], environment := "fortress",
    isFinal := true }

/-- `CAMPAIGN_DATA.levels`: the mission-id → mission mapping. -/
def levels : String → Option Mission
  | "1" => some corneria
  | "2a" => some meteo
  | "2b" => some sectorY
  | "3" => some aquas
  | "4a" => some zoness
  | "4b" => some macbeth
  | "5" => some venom
  | _ => none

/-- One entry of `WINGMEN_DATA` (display-only fields other than the id and
stats are dropped; no transition reads them). -/
structure Wingman where
  id : String
  attack : Nat
  defense : Nat
  support : Nat
deriving DecidableEq, Repr

def WINGMEN_DATA : List Wingman :=
  [ { id := "falco", attack := 5, defense := 2, support := 3 },
    { id := "peppy", attack := 3, defense := 3, support := 5 },
    { id := "slippy", attack := 2, defense := 4, support := 4 } ]

/-- The roster of selectable wingman ids. -/
def wingmenIds : List String := WINGMEN_DATA.map (fun w => w.id)

/-- One tier of `NEW_GAME_PLUS_UNLOCKS` (object keys 1..5, kept here with
the key as `tier`, in the ascending key order `Object.entries` yields for
integer-like keys). -/
structure Unlock where
  tier : Nat
  name : String
  description : String
deriving DecidableEq, Repr

def NEW_GAME_PLUS_UNLOCKS : List Unlock :=
  [ { tier := 1, name := "Expert Mode", description := "Enemies deal 50% more damage" },
    { tier := 2, name := "Hyper Laser", description := "Start with upgraded weapons" },
    { tier := 3, name := "Stealth Mode", description := "Reduced enemy detection range" },
    { tier := 4, name := "Boss Rush", description := "Fight all bosses in sequence" },
    { tier := 5, name := "Mirror Mode", description := "All levels are mirrored" } ]

/-- `GameCompleteScreen`'s unlock list:
`Object.entries(NEW_GAME_PLUS_UNLOCKS).filter(([level]) => parseInt(level) <= newGamePlusLevel)`. -/
def unlocksThrough (completedRuns : Nat) : List Unlock :=
  NEW_GAME_PLUS_UNLOCKS.filter (fun u => u.tier ≤ completedRuns)

/-- `GameCompleteScreen`'s `NEW_GAME_PLUS_UNLOCKS[newGamePlusLevel]`:
exact-key lookup in the unlock table. -/
def newlyUnlocked (completedRuns : Nat) : Option Unlock :=
  NEW_GAME_PLUS_UNLOCKS.find? (fun u => u.tier == completedRuns)

/-- The options record (float-valued volume sliders omitted: never read by
the progression logic). -/
structure GameOptions where
  showFPS : Bool
  screenShake : Bool
  subtitles : Bool
  difficulty : String
deriving DecidableEq, Repr

def defaultOptions : GameOptions :=
  { showFPS := false, screenShake := true, subtitles := true, difficulty := "normal" }

/-- The persisted progress record (`saveProgress`'s object, key
`'currentProgress'`). -/
structure GameProgress where
  options : GameOptions
  currentLevel : String
  completedLevels : List String
  selectedWingmen : List String
  totalScore : Nat
  completedRuns : Nat
deriving DecidableEq, Repr

/-- An external level result (`externalLevelResults`): only `completed` and
`score` are read by the orchestrator; the display-only fields are kept for
shape. -/
structure LevelResults where
  completed : Bool
  score : Nat
  hits : Nat
  accuracy : Nat
  time : String
  rank : String
deriving DecidableEq, Repr

/-- The orchestrator's screen tag (`useState('loading')`). -/
inductive Screen where
  | loading
  | mainMenu
  | optionsMenu
  | wingmanChoice
  | mission
  | playing
  | results
  | campaignChoice
  | gameComplete
deriving DecidableEq, Repr

/-- The component's in-memory state: the `useState` hooks of
`StarfoxMenuSystem`. -/
structure MenuState where
  screen : Screen
  gameProgress : Option GameProgress
  options : GameOptions
  selectedWingmen : List String
  currentLevel : String
  completedLevels : List String
  totalScore : Nat
  lastResults : Option LevelResults
deriving DecidableEq, Repr

/-- The durable store: at most one record under the fixed key. -/
def Store := Option GameProgress
deriving DecidableEq, Repr

/-- Component state paired with the store contents. -/
def Sys := MenuState × Store
deriving DecidableEq, Repr

/-- `gameProgress?.completedRuns || 0`. -/
def progCompletedRuns (s : MenuState) : Nat :=
  (s.gameProgress.map (fun gp => gp.completedRuns)).getD 0

/-- The optional-field overrides a call site passes to `saveProgress`
(JavaScript's `{...progress, ...updates}` object spread). -/
structure ProgressUpdates where
  options : Option GameOptions := none
  currentLevel : Option String := none
  completedLevels : Option (List String) := none
  selectedWingmen : Option (List String) := none
  totalScore : Option Nat := none
  completedRuns : Option Nat := none
deriving DecidableEq, Repr

def applyUpdates (p : GameProgress) (u : ProgressUpdates) : GameProgress :=
  { options := u.options.getD p.options,
    currentLevel := u.currentLevel.getD p.currentLevel,
    completedLevels := u.completedLevels.getD p.completedLevels,
    selectedWingmen := u.selectedWingmen.getD p.selectedWingmen,
    totalScore := u.totalScore.getD p.totalScore,
    completedRuns := u.completedRuns.getD p.completedRuns }

/-- The base snapshot `saveProgress` assembles from current state before
applying its `updates` argument. -/
def baseProgress (s : MenuState) : GameProgress :=
  { options := s.options,
    currentLevel := s.currentLevel,
    completedLevels := s.completedLevels,
    selectedWingmen := s.selectedWingmen,
    totalScore := s.totalScore,
    completedRuns := progCompletedRuns s }

/-- `saveProgress` on its success path: write the merged snapshot to the
store and mirror it into `gameProgress`. -/
def saveProgress (sys : Sys) (u : ProgressUpdates) : Sys :=
  let progress := applyUpdates (baseProgress sys.1) u
  ({ sys.1 with gameProgress := some progress }, some progress)

/-- `handleNewGame`: reset the run-scoped state and go pick wingmen. -/
def handleNewGame (sys : Sys) : Sys :=
  ({ sys.1 with selectedWingmen := [], currentLevel := "1",
                completedLevels := [], totalScore := 0,
                screen := Screen.wingmanChoice }, sys.2)

/-- `handleContinue`: restore the run from `gameProgress` (no-op when there
is none) and derive the destination screen from the restored data. -/
def handleContinue (sys : Sys) : Sys :=
  match sys.1.gameProgress with
  | none => sys
  | some gp =>
    let scr :=
      if gp.completedLevels.length > 0 then Screen.campaignChoice
      else if gp.selectedWingmen.length > 0 then Screen.mission
      else Screen.wingmanChoice
    ({ sys.1 with selectedWingmen := gp.selectedWingmen,
                  currentLevel := gp.currentLevel,
                  completedLevels := gp.completedLevels,
                  totalScore := gp.totalScore,
                  screen := scr }, sys.2)

/-- `handleWingmenConfirm`: persist the selection and enter the briefing
screen.  The handler itself performs no validation. -/
def handleWingmenConfirm (sys : Sys) : Sys :=
  let sys' := saveProgress sys { selectedWingmen := some sys.1.selectedWingmen }
  ({ sys'.1 with screen := Screen.mission }, sys'.2)

/-- The `useEffect` ingesting `externalLevelResults`: record the outcome and
show the results screen. -/
def receiveResults (sys : Sys) (r : LevelResults) : Sys :=
  ({ sys.1 with lastResults := some r, screen := Screen.results }, sys.2)

/-- `lastResults?.completed` coerced to a boolean. -/
def outcomeCompleted (s : MenuState) : Bool :=
  (s.lastResults.map (fun r => r.completed)).getD false

/-- `lastResults?.score || 0`. -/
def outcomeScore (s : MenuState) : Nat :=
  (s.lastResults.map (fun r => r.score)).getD 0

/-- `handleResultsContinue`: the core `reportOutcome` acknowledgement.  A
failed outcome re-enters the briefing screen unchanged; a victory appends
`currentLevel` to `completedLevels`, adds the score, and either finishes the
run (final level) or returns to the campaign map. -/
def handleResultsContinue (sys : Sys) : Sys :=
  let s := sys.1
  if outcomeCompleted s = false then
    ({ s with screen := Screen.mission }, sys.2)
  else
    let newCompletedLevels := s.completedLevels ++ [s.currentLevel]
    let newTotalScore := s.totalScore + outcomeScore s
    let s' := { s with completedLevels := newCompletedLevels,
                       totalScore := newTotalScore }
    let isFinal := ((levels s.currentLevel).map (fun ld => ld.isFinal)).getD false
    if isFinal then
      let newCompletedRuns := progCompletedRuns s + 1
      let sys' := saveProgress (s', sys.2)
        { completedLevels := some newCompletedLevels,
          totalScore := some newTotalScore,
          completedRuns := some newCompletedRuns,
          currentLevel := some "1" }
      ({ sys'.1 with screen := Screen.gameComplete }, sys'.2)
    else
      let sys' := saveProgress (s', sys.2)
        { completedLevels := some newCompletedLevels,
          totalScore := some newTotalScore }
      ({ sys'.1 with screen := Screen.campaignChoice }, sys'.2)

/-- `handleLevelSelect`: take a path choice, persist it, enter briefing. -/
def handleLevelSelect (sys : Sys) (levelId : String) : Sys :=
  let s' := { sys.1 with currentLevel := levelId }
  let sys' := saveProgress (s', sys.2) { currentLevel := some levelId }
  ({ sys'.1 with screen := Screen.mission }, sys'.2)

/-- `handleNewGamePlus`: delete the persisted record (`clearGameProgress`),
reset the run-scoped in-memory state, and go pick wingmen.  The in-memory
`gameProgress` and `options` are left untouched; no fresh record is
written. -/
def handleNewGamePlus (sys : Sys) : Sys :=
  ({ sys.1 with selectedWingmen := [], currentLevel := "1",
                completedLevels := [], totalScore := 0,
                screen := Screen.wingmanChoice }, (none : Store))

/-- `getAvailableChoices`: the entry level when nothing is completed,
otherwise the last completed level's `nextChoices` minus already-completed
ids (and `[]` when the last completed id is not in the campaign). -/
def getAvailableChoices (s : MenuState) : List String :=
  match s.completedLevels.getLast? with
  | none => ["1"]
  | some lastCompleted =>
    match levels lastCompleted with
    | none => []
    | some lastLevelData =>
      lastLevelData.nextChoices.filter (fun levelId => !(s.completedLevels.contains levelId))

/-- `WingmanChoiceScreen.handleToggle`: deselect a selected id, append an
unselected one while below `maxSelections`, otherwise leave the selection
alone. -/
def handleToggle (selectedWingmen : List String) (maxSelections : Nat)
    (wingmanId : String) : List String :=
  if selectedWingmen.contains wingmanId then
    selectedWingmen.filter (fun id => id ≠ wingmanId)
  else if selectedWingmen.length < maxSelections then
    selectedWingmen ++ [wingmanId]
  else
    selectedWingmen

/-- The confirm button's `disabled` predicate on the wingman screen:
`selectedWingmen.length !== maxSelections`. -/
def confirmDisabled (selectedWingmen : List String) (maxSelections : Nat) : Bool :=
  selectedWingmen.length ≠ maxSelections

/-- Selections reachable through the wingman-selection interface: the
screen is entered with an empty selection and every click goes through
`handleToggle` with `maxSelections = 2` and a roster id. -/
inductive SquadReachable : List String → Prop where
  | init : SquadReachable []
  | step (l : List String) (wingmanId : String) (hl : SquadReachable l)
      (hid : wingmanId ∈ wingmenIds) : SquadReachable (handleToggle l 2 wingmanId)

/-- Ids offered by `getAvailableChoices` are never already completed: the
entry level is offered only over an empty path, and otherwise the offered
list filters out every completed id. -/
theorem mem_getAvailableChoices_not_completed (s : MenuState) (levelId : String)
    (h : levelId ∈ getAvailableChoices s) : levelId ∉ s.completedLevels := by
  unfold getAvailableChoices at h
  cases hlast : s.completedLevels.getLast? with
  | none =>
    have hnil : s.completedLevels = [] := by
      cases hcl : s.completedLevels with
      | nil => rfl
      | cons a as => rw [hcl] at hlast; simp at hlast
    rw [hnil]
    exact List.not_mem_nil _
  | some lastCompleted =>
    simp only [hlast] at h
    cases hlev : levels lastCompleted with
    | none => simp only [hlev] at h; exact absurd h (List.not_mem_nil _)
    | some ld =>
      simp only [hlev] at h
      simp only [List.mem_filter, Bool.not_eq_true'] at h
      intro hmem
      have : s.completedLevels.contains levelId = true := by
        simpa using hmem
      rw [h.2] at this
      exact Bool.false_ne_true this

/-- A run state that has completed only the entry mission. -/
def stateAfterEntry : MenuState :=
  { screen := Screen.campaignChoice, gameProgress := none,
    options := defaultOptions, selectedWingmen := ["falco", "peppy"],
    currentLevel := "1", completedLevels := ["1"], totalScore := 1000,
    lastResults := none }

/-- A run state that has completed the entry mission and then `2a`. -/
def stateAfterMeteo : MenuState :=
  { stateAfterEntry with currentLevel := "2a", completedLevels := ["1", "2a"] }

/-- Claim C2: with an empty completed path `getAvailableChoices` returns
exactly `["1"]`; otherwise it returns the `nextChoices` of the last
completed mission with already-completed ids filtered out, in `nextChoices`
order; concretely it yields `["2a", "2b"]` after completing only the entry
mission and `["3"]` after additionally completing `2a`. -/
theorem C2_availableChoices (s : MenuState) :
    (s.completedLevels = [] → getAvailableChoices s = ["1"]) ∧
    (∀ lastId m, s.completedLevels.getLast? = some lastId → levels lastId = some m →
      getAvailableChoices s =
        m.nextChoices.filter (fun levelId => !(s.completedLevels.contains levelId))) ∧
    (s.completedLevels = ["1"] → getAvailableChoices s = ["2a", "2b"]) ∧
    (s.completedLevels = ["1", "2a"] → getAvailableChoices s = ["3"]) := by
  refine ⟨?_, ?_, ?_, ?_⟩
  · intro h
    simp [getAvailableChoices, h]
  · intro lastId m hlast hm
    unfold getAvailableChoices
    simp only [hlast, hm]
  · intro h
    unfold getAvailableChoices
    rw [h]
    decide
  · intro h
    unfold getAvailableChoices
    rw [h]
    decide

theorem C2_witness :
    getAvailableChoices stateAfterEntry = ["2a", "2b"] ∧
    getAvailableChoices stateAfterMeteo = ["3"] :=
  ⟨(C2_availableChoices stateAfterEntry).2.2.1 rfl,
   (C2_availableChoices stateAfterMeteo).2.2.2 rfl⟩

/-- A persisted record in which the entry mission is already completed while
it is also the current mission (a double report of mission `1`). -/
def progressC1 : GameProgress :=
  { options := defaultOptions, currentLevel := "1", completedLevels := ["1"],
    selectedWingmen := ["falco", "peppy"], totalScore := 500, completedRuns := 0 }

/-- A victorious outcome. -/
def victoryResults : LevelResults :=
  { completed := true, score := 100, hits := 10, accuracy := 50,
    time := "1:23", rank := "A" }

/-- The system about to acknowledge a victorious result for mission `1`
although `1` is already a member of the completed path. -/
def sysC1 : Sys :=
  ({ screen := Screen.results, gameProgress := some progressC1,
     options := defaultOptions, selectedWingmen := ["falco", "peppy"],
     currentLevel := "1", completedLevels := ["1"], totalScore := 500,
     lastResults := some victoryResults }, some progressC1)

/-- Claim C1 fails on the code: acknowledging a victorious result whose
mission id is already in the completed path does not fail with any
`DuplicateCompletion` error and does not leave the run state unchanged — it
appends the id again, producing a duplicated completed path. -/
theorem C1_counterexample :
    sysC1.1.currentLevel ∈ sysC1.1.completedLevels ∧
    (handleResultsContinue sysC1).1.completedLevels = ["1", "1"] ∧
    ¬ (handleResultsContinue sysC1).1.completedLevels.Nodup ∧
    handleResultsContinue sysC1 ≠ sysC1 := by
  decide

/-- Claim C1 (amended): acknowledging a victorious result performs no
duplicate check — it appends the current mission id to the completed path
unconditionally, whether or not the id is already present, so a double
report duplicates the id.  Duplicate avoidance comes only from the
path-choice flow: `getAvailableChoices` never offers an id that is already
in the completed path. -/
theorem C1_noDuplicateCheck (sys : Sys) (h : outcomeCompleted sys.1 = true) :
    (handleResultsContinue sys).1.completedLevels =
      sys.1.completedLevels ++ [sys.1.currentLevel] ∧
    (∀ levelId, levelId ∈ getAvailableChoices sys.1 →
      levelId ∉ sys.1.completedLevels) := by
  constructor
  · unfold handleResultsContinue
    simp only [h]
    split
    · rename_i hcontra
      exact absurd hcontra (by decide)
    · split <;> rfl
  · exact fun levelId hmem => mem_getAvailableChoices_not_completed sys.1 levelId hmem

theorem C1_witness :
    outcomeCompleted sysC1.1 = true ∧
    (handleResultsContinue sysC1).1.completedLevels =
      sysC1.1.completedLevels ++ [sysC1.1.currentLevel] :=
  ⟨rfl, (C1_noDuplicateCheck sysC1 rfl).1⟩

/-- Claim C3: when the current mission is the final one and the outcome is
victorious, acknowledgement writes a record whose `completedRuns` is exactly
one more than the persisted counter, whose `currentLevel` is reset to the
entry id `"1"`, and the screen becomes `gameComplete` (RunComplete). -/
theorem C3_finalMission (sys : Sys) (gp0 : GameProgress) (ld : Mission)
    (hmirror : sys.1.gameProgress = some gp0) (hstore : sys.2 = some gp0)
    (hc : outcomeCompleted sys.1 = true)
    (hl : levels sys.1.currentLevel = some ld) (hf : ld.isFinal = true) :
    ∃ rec, (handleResultsContinue sys).2 = some rec ∧
      rec.completedRuns = gp0.completedRuns + 1 ∧
      rec.currentLevel = "1" ∧
      (handleResultsContinue sys).1.screen = Screen.gameComplete := by
  unfold handleResultsContinue
  simp only [hc, hl]
  split
  · rename_i hcontra
    exact absurd hcontra (by decide)
  · split
    · refine ⟨_, rfl, ?_, ?_, rfl⟩
      · simp [applyUpdates, baseProgress, progCompletedRuns, hmirror]
      · simp [applyUpdates, baseProgress]
    · rename_i hfin
      exact absurd (by simp [hf]) hfin

/-- The system about to acknowledge a victorious result on the final
mission `5`, with two prior completed runs on record. -/
def progressC3 : GameProgress :=
  { options := defaultOptions, currentLevel := "5",
    completedLevels := ["1", "2a", "3", "4a"],
    selectedWingmen := ["falco", "peppy"], totalScore := 4000,
    completedRuns := 2 }

def sysC3 : Sys :=
  ({ screen := Screen.results, gameProgress := some progressC3,
     options := defaultOptions, selectedWingmen := ["falco", "peppy"],
     currentLevel := "5", completedLevels := ["1", "2a", "3", "4a"],
     totalScore := 4000, lastResults := some victoryResults },
   some progressC3)

theorem C3_witness :
    ∃ rec, (handleResultsContinue sysC3).2 = some rec ∧
      rec.completedRuns = progressC3.completedRuns + 1 ∧
      rec.currentLevel = "1" ∧
      (handleResultsContinue sysC3).1.screen = Screen.gameComplete :=
  C3_finalMission sysC3 progressC3 venom rfl rfl rfl rfl rfl

/-- A system holding a persisted record with three completed runs, about to
start New Game Plus. -/
def progressC4 : GameProgress :=
  { options := defaultOptions, currentLevel := "1",
    completedLevels := ["1", "2b", "3", "4b", "5"],
    selectedWingmen := ["falco", "slippy"], totalScore := 9000,
    completedRuns := 3 }

def sysC4 : Sys :=
  ({ screen := Screen.gameComplete, gameProgress := some progressC4,
     options := defaultOptions, selectedWingmen := ["falco", "slippy"],
     currentLevel := "5", completedLevels := ["1", "2b", "3", "4b", "5"],
     totalScore := 9000, lastResults := some victoryResults },
   some progressC4)

/-- Claim C4 fails on the code: `handleNewGamePlus` deletes the persisted
record (which held `completedRuns = 3`) and writes no fresh record at all,
so after it the store holds nothing — the persisted `completedRuns` and
`options` fields are not preserved. -/
theorem C4_counterexample :
    sysC4.2 = some progressC4 ∧ progressC4.completedRuns = 3 ∧
    (handleNewGamePlus sysC4).2 = none := by
  decide

/-- Claim C4 (amended): `handleNewGamePlus` deletes the persisted save and
writes no fresh record (the store ends empty, so neither `completedRuns`
nor `options` survives in the store; the in-memory `gameProgress` mirror
and `options` are left untouched, and the next save re-persists them),
clears the run-scoped in-memory fields (squad, path, score,
`currentLevel = "1"`), and lands on the wingman-selection screen
(AwaitingSquad). -/
theorem C4_newGamePlus (sys : Sys) :
    (handleNewGamePlus sys).2 = none ∧
    (handleNewGamePlus sys).1.selectedWingmen = [] ∧
    (handleNewGamePlus sys).1.completedLevels = [] ∧
    (handleNewGamePlus sys).1.totalScore = 0 ∧
    (handleNewGamePlus sys).1.currentLevel = "1" ∧
    (handleNewGamePlus sys).1.screen = Screen.wingmanChoice ∧
    (handleNewGamePlus sys).1.gameProgress = sys.1.gameProgress ∧
    (handleNewGamePlus sys).1.options = sys.1.options :=
  ⟨rfl, rfl, rfl, rfl, rfl, rfl, rfl, rfl⟩

/-- Claim C5: `handleContinue` on a present record restores the run state
from the record and derives the destination screen most-advanced-first:
non-empty completed path lands on the campaign map (PathChoice), else a
non-empty squad lands on briefing, else on wingman selection. -/
theorem C5_resumeRun (sys : Sys) (gp : GameProgress)
    (h : sys.1.gameProgress = some gp) :
    ((handleContinue sys).1.selectedWingmen = gp.selectedWingmen ∧
     (handleContinue sys).1.currentLevel = gp.currentLevel ∧
     (handleContinue sys).1.completedLevels = gp.completedLevels ∧
     (handleContinue sys).1.totalScore = gp.totalScore) ∧
    (gp.completedLevels ≠ [] →
      (handleContinue sys).1.screen = Screen.campaignChoice) ∧
    (gp.completedLevels = [] → gp.selectedWingmen ≠ [] →
      (handleContinue sys).1.screen = Screen.mission) ∧
    (gp.completedLevels = [] → gp.selectedWingmen = [] →
      (handleContinue sys).1.screen = Screen.wingmanChoice) := by
  unfold handleContinue
  simp only [h]
  refine ⟨⟨trivial, trivial, trivial, trivial⟩, ?_, ?_, ?_⟩
  · intro hne
    have hpos : 0 < gp.completedLevels.length := List.length_pos.mpr hne
    simp [hpos]
  · intro hnil hne
    have hpos : 0 < gp.selectedWingmen.length := List.length_pos.mpr hne
    simp [hnil, hpos]
  · intro hnil hnil2
    simp [hnil, hnil2]

/-- A persisted record mid-run: non-empty completed path. -/
def progressC5 : GameProgress :=
  { options := defaultOptions, currentLevel := "2b",
    completedLevels := ["1"], selectedWingmen := ["peppy", "slippy"],
    totalScore := 1500, completedRuns := 0 }

def sysC5 : Sys :=
  ({ screen := Screen.mainMenu, gameProgress := some progressC5,
     options := defaultOptions, selectedWingmen := [], currentLevel := "1",
     completedLevels := [], totalScore := 0, lastResults := none },
   some progressC5)

theorem C5_witness :
    (handleContinue sysC5).1.completedLevels = progressC5.completedLevels ∧
    (handleContinue sysC5).1.screen = Screen.campaignChoice :=
  ⟨(C5_resumeRun sysC5 progressC5 rfl).1.2.2.1,
   (C5_resumeRun sysC5 progressC5 rfl).2.1 (by decide)⟩

/-- Claim C6: acknowledging a victorious outcome of score `s` on a
non-final mission adds exactly `s` to the cumulative score, appends the
current mission id exactly once to the completed path, and moves to the
campaign-choice screen (PathChoice). -/
theorem C6_nonFinalVictory (sys : Sys) (r : LevelResults) (ld : Mission)
    (hr : sys.1.lastResults = some r) (hc : r.completed = true)
    (hl : levels sys.1.currentLevel = some ld) (hf : ld.isFinal = false) :
    (handleResultsContinue sys).1.totalScore = sys.1.totalScore + r.score ∧
    (handleResultsContinue sys).1.completedLevels =
      sys.1.completedLevels ++ [sys.1.currentLevel] ∧
    (handleResultsContinue sys).1.screen = Screen.campaignChoice := by
  have hoc : outcomeCompleted sys.1 = true := by
    simp [outcomeCompleted, hr, hc]
  have hos : outcomeScore sys.1 = r.score := by
    simp [outcomeScore, hr]
  unfold handleResultsContinue
  simp only [hoc, hl]
  split
  · rename_i hcontra
    exact absurd hcontra (by decide)
  · split
    · rename_i hfin
      exact absurd hfin (by simp [hf])
    · exact ⟨by simp [saveProgress, applyUpdates, baseProgress, hos], rfl, rfl⟩

/-- A system about to acknowledge a 1000-point victory on the non-final
entry mission. -/
def bigVictoryResults : LevelResults :=
  { completed := true, score := 1000, hits := 42, accuracy := 90,
    time := "2:10", rank := "S" }

def sysC6 : Sys :=
  ({ screen := Screen.results, gameProgress := none,
     options := defaultOptions, selectedWingmen := ["falco", "peppy"],
     currentLevel := "1", completedLevels := [], totalScore := 0,
     lastResults := some bigVictoryResults }, none)

theorem C6_witness :
    (handleResultsContinue sysC6).1.totalScore = sysC6.1.totalScore + 1000 ∧
    (handleResultsContinue sysC6).1.completedLevels = ["1"] ∧
    (handleResultsContinue sysC6).1.screen = Screen.campaignChoice :=
  C6_nonFinalVictory sysC6 bigVictoryResults corneria rfl rfl rfl rfl

/-- Claim C7: ingesting a failed outcome records it as the last result and
changes nothing else of the run state, and acknowledging it re-enters the
briefing screen with the whole state otherwise untouched (score, path,
squad and current mission unchanged). -/
theorem C7_failedOutcome (sys : Sys) (r : LevelResults)
    (hc : r.completed = false) :
    ((receiveResults sys r).1.lastResults = some r ∧
     (receiveResults sys r).1.totalScore = sys.1.totalScore ∧
     (receiveResults sys r).1.completedLevels = sys.1.completedLevels ∧
     (receiveResults sys r).1.selectedWingmen = sys.1.selectedWingmen ∧
     (receiveResults sys r).1.currentLevel = sys.1.currentLevel ∧
     (receiveResults sys r).1.screen = Screen.results ∧
     (receiveResults sys r).2 = sys.2) ∧
    handleResultsContinue (receiveResults sys r) =
      ({ (receiveResults sys r).1 with screen := Screen.mission },
       (receiveResults sys r).2) := by
  refine ⟨⟨rfl, rfl, rfl, rfl, rfl, rfl, rfl⟩, ?_⟩
  have hoc : outcomeCompleted (receiveResults sys r).1 = false := by
    simp [outcomeCompleted, receiveResults, hc]
  unfold handleResultsContinue
  simp only [hoc]
  rw [if_pos trivial]

/-- A failed outcome worth 500 points. -/
def failedResults : LevelResults :=
  { completed := false, score := 500, hits := 5, accuracy := 20,
    time := "0:45", rank := "D" }

theorem C7_witness :
    (receiveResults sysC6 failedResults).1.totalScore = sysC6.1.totalScore ∧
    handleResultsContinue (receiveResults sysC6 failedResults) =
      ({ (receiveResults sysC6 failedResults).1 with screen := Screen.mission },
       (receiveResults sysC6 failedResults).2) :=
  ⟨(C7_failedOutcome sysC6 failedResults rfl).1.2.1,
   (C7_failedOutcome sysC6 failedResults rfl).2⟩

/-- A system on the wingman screen with only one wingman selected. -/
def sysC8 : Sys :=
  ({ screen := Screen.wingmanChoice, gameProgress := none,
     options := defaultOptions, selectedWingmen := ["falco"],
     currentLevel := "1", completedLevels := [], totalScore := 0,
     lastResults := none }, none)

/-- Claim C8 fails on the code: `handleWingmenConfirm` does not fail with
`InvalidSquadSize` on a squad of size 1 — invoked on a one-member
selection it persists that selection and transitions to the briefing
screen. -/
theorem C8_counterexample :
    sysC8.1.selectedWingmen.length = 1 ∧
    (handleWingmenConfirm sysC8).1.screen = Screen.mission ∧
    ((handleWingmenConfirm sysC8).2.map (fun gp => gp.selectedWingmen)) =
      some ["falco"] := by
  decide

/-- Claim C8 (amended): the confirm handler itself performs no size or
roster validation and never fails — whenever invoked it persists the
current selection and transitions to the briefing screen.  Enforcement
lives in the UI: the confirm button is disabled exactly when the selection
size differs from the configured team size 2, and the toggle handler only
produces selections of roster ids, so with exactly 2 valid ids confirming
succeeds, persists the selection, and lands on briefing. -/
theorem C8_confirmSquad (sys : Sys) :
    ((handleWingmenConfirm sys).1.screen = Screen.mission ∧
     ((handleWingmenConfirm sys).2.map (fun gp => gp.selectedWingmen)) =
       some sys.1.selectedWingmen) ∧
    (∀ l : List String, confirmDisabled l 2 = false ↔ l.length = 2) ∧
    (∀ (l : List String) (wid : String), (∀ x ∈ l, x ∈ wingmenIds) →
      wid ∈ wingmenIds → ∀ x ∈ handleToggle l 2 wid, x ∈ wingmenIds) := by
  refine ⟨⟨rfl, by simp [handleWingmenConfirm, saveProgress, applyUpdates, baseProgress]⟩, ?_, ?_⟩
  · intro l
    simp [confirmDisabled]
  · intro l wid hl hw x hx
    unfold handleToggle at hx
    split at hx
    · exact hl x (List.mem_of_mem_filter hx)
    · split at hx
      · rcases List.mem_append.mp hx with hx1 | hx2
        · exact hl x hx1
        · rw [List.mem_singleton.mp hx2]
          exact hw
      · exact hl x hx

theorem C8_witness :
    ((handleWingmenConfirm sysC1).1.screen = Screen.mission) ∧
    (confirmDisabled ["falco", "peppy"] 2 = false ↔
      (["falco", "peppy"] : List String).length = 2) ∧
    ("slippy" ∈ wingmenIds) :=
  ⟨(C8_confirmSquad sysC1).1.1,
   (C8_confirmSquad sysC1).2.1 ["falco", "peppy"],
   (C8_confirmSquad sysC1).2.2 ["falco"] "slippy" (by decide) (by decide)
     "slippy" (by decide)⟩

/-- Claim C9: `unlocksThrough n` is exactly the configured tiers of number
at most `n`; `newlyUnlocked n` is the configured tier numbered exactly `n`
when one exists and nothing otherwise; beyond the highest configured tier
(5) the policy is capped: the through-list saturates and nothing new is
unlocked. -/
theorem C9_unlockPolicy (n : Nat) :
    (∀ u, u ∈ unlocksThrough n ↔ u ∈ NEW_GAME_PLUS_UNLOCKS ∧ u.tier ≤ n) ∧
    (∀ u, newlyUnlocked n = some u → u ∈ NEW_GAME_PLUS_UNLOCKS ∧ u.tier = n) ∧
    ((∃ u ∈ NEW_GAME_PLUS_UNLOCKS, u.tier = n) → ∃ u, newlyUnlocked n = some u) ∧
    (5 ≤ n → unlocksThrough n = NEW_GAME_PLUS_UNLOCKS) ∧
    (5 < n → newlyUnlocked n = none) := by
  refine ⟨?_, ?_, ?_, ?_, ?_⟩
  · intro u
    simp [unlocksThrough, List.mem_filter]
  · intro u hu
    refine ⟨List.mem_of_find?_eq_some hu, ?_⟩
    have := List.find?_some hu
    simpa using this
  · rintro ⟨u, hu, ht⟩
    subst ht
    fin_cases hu <;> exact ⟨_, rfl⟩
  · intro h5
    unfold unlocksThrough
    rw [List.filter_eq_self]
    intro u hu
    fin_cases hu <;> simp <;> omega
  · intro h5
    unfold newlyUnlocked
    rw [List.find?_eq_none]
    intro u hu
    fin_cases hu <;> simp <;> omega

theorem C9_witness :
    unlocksThrough 7 = NEW_GAME_PLUS_UNLOCKS ∧
    newlyUnlocked 7 = none ∧
    (∃ u, newlyUnlocked 3 = some u) :=
  ⟨(C9_unlockPolicy 7).2.2.2.1 (by decide),
   (C9_unlockPolicy 7).2.2.2.2 (by decide),
   (C9_unlockPolicy 3).2.2.1
     ⟨{ tier := 3, name := "Stealth Mode",
        description := "Reduced enemy detection range" }, by decide, rfl⟩⟩

/-- Claim C10: every selection reachable through the wingman screen
(starting empty, every click a roster toggle at `maxSelections = 2`) has no
duplicate ids and at most 2 members; toggling a selected member removes
exactly that member; toggling an unselected member at the cap leaves the
selection unchanged. -/
theorem C10_squadInvariant :
    (∀ l, SquadReachable l → l.Nodup ∧ l.length ≤ 2) ∧
    (∀ (l : List String) (wid : String), wid ∈ l →
      ∀ x, x ∈ handleToggle l 2 wid ↔ (x ∈ l ∧ x ≠ wid)) ∧
    (∀ (l : List String) (wid : String), wid ∉ l → l.length = 2 →
      handleToggle l 2 wid = l) := by
  refine ⟨?_, ?_, ?_⟩
  · intro l hl
    induction hl with
    | init => exact ⟨List.nodup_nil, by simp⟩
    | step l wid hl hid ih =>
      unfold handleToggle
      split
      · exact ⟨ih.1.filter _, le_trans (List.length_filter_le _ _) ih.2⟩
      · split
        · rename_i hcont hlen
          have hnm : wid ∉ l := by simpa using hcont
          refine ⟨?_, ?_⟩
          · rw [List.nodup_append]
            exact ⟨ih.1, List.nodup_singleton _, by simpa using hnm⟩
          · rw [List.length_append]
            simp
            omega
        · exact ih
  · intro l wid hmem x
    have hcont : l.contains wid = true := by simpa using hmem
    unfold handleToggle
    rw [if_pos hcont]
    simp [List.mem_filter]
  · intro l wid hnm hlen
    have hcont : l.contains wid = false := by simpa using hnm
    unfold handleToggle
    rw [if_neg (by simpa using hnm), if_neg (by simp [hlen])]

theorem C10_witness :
    ((["falco"] : List String).Nodup ∧ (["falco"] : List String).length ≤ 2) ∧
    ("falco" ∈ handleToggle ["falco", "peppy"] 2 "peppy" ↔
      ("falco" ∈ (["falco", "peppy"] : List String) ∧ "falco" ≠ "peppy")) ∧
    handleToggle ["falco", "peppy"] 2 "slippy" = ["falco", "peppy"] :=
  ⟨C10_squadInvariant.1 ["falco"]
     (SquadReachable.step [] "falco" SquadReachable.init (by decide)),
   C10_squadInvariant.2.1 ["falco", "peppy"] "peppy" (by decide) "falco",
   C10_squadInvariant.2.2 ["falco", "peppy"] "slippy" (by decide) (by decide)⟩

end Starfox
